import Mathlib

/-!
Shallow embedding of `src/bonsai/active_directory/acl.py` (the ACL/ACE
binary decoder of the PyLDAP/bonsai project) and proofs about it.

Byte buffers are modelled as `List Nat` (each element a byte value);
Python slices `data[a:b]` become `(data.drop a).take (b - a)`, which has
the same clamping behaviour.  Python exceptions are modelled by the
`PyErr` type below and fallible functions return `Except PyErr _`.
-/

/--
Model of the Python exceptions that can escape `ACE.from_binary` and
`ACL.from_binary`:
* `typeError` — the explicit `TypeError` raised when the argument is not bytes;
* `notValidACE n` — the `ValueError("Not a valid binary ACE, ...")` that wraps a
  `struct.error` (the wrapped message reports that a buffer of `n` bytes was
  required);
* `invalidACEType v` — the `ValueError` raised by `ACEType(v)` for an unknown code;
* `invalidUUID` — the `ValueError` raised by `uuid.UUID(bytes_le=...)` when the
  slice is not 16 bytes long (not caught by the `except struct.error` clause);
* `notValidACL n` — the `ValueError("Not a valid binary ACL, ...")` wrapping a
  `struct.error` from the ACL header unpack;
* `invalidACLRevision v` — the `ValueError` raised by `ACLRevision(v)`.
-/
inductive PyErr where
  | typeError (msg : String)
  | notValidACE (needed : Nat)
  | invalidACEType (v : Nat)
  | invalidUUID
  | notValidACL (needed : Nat)
  | invalidACLRevision (v : Nat)
  deriving DecidableEq

/-- The `ACEFlag` IntEnum of the source. -/
inductive ACEFlag where
  | OBJECT_INHERIT
  | CONTAINER_INHERIT
  | NO_PROPAGATE_INHERIT
  | INHERIT_ONLY
  | INHERITED
  | SUCCESSFUL_ACCESS
  | FAILED_ACCESS
  deriving DecidableEq

/-- Integer value of each `ACEFlag` member, as in the source. -/
def ACEFlag.val : ACEFlag → Nat
  | .OBJECT_INHERIT => 0x01
  | .CONTAINER_INHERIT => 0x02
  | .NO_PROPAGATE_INHERIT => 0x04
  | .INHERIT_ONLY => 0x08
  | .INHERITED => 0x10
  | .SUCCESSFUL_ACCESS => 0x40
  | .FAILED_ACCESS => 0x80

/-- Iteration order of `ACEFlag` (Python iterates IntEnum in definition order). -/
def ACEFlag.all : List ACEFlag :=
  [.OBJECT_INHERIT, .CONTAINER_INHERIT, .NO_PROPAGATE_INHERIT, .INHERIT_ONLY,
   .INHERITED, .SUCCESSFUL_ACCESS, .FAILED_ACCESS]

/-- The `ACEType` IntEnum of the source (codes 0 through 19). -/
inductive ACEType where
  | ACCESS_ALLOWED
  | ACCESS_DENIED
  | SYSTEM_AUDIT
  | SYSTEM_ALARM
  | ACCESS_ALLOWED_COMPOUND
  | ACCESS_ALLOWED_OBJECT
  | ACCESS_DENIED_OBJECT
  | SYSTEM_AUDIT_OBJECT
  | SYSTEM_ALARM_OBJECT
  | ACCESS_ALLOWED_CALLBACK
  | ACCESS_DENIED_CALLBACK
  | ACCESS_ALLOWED_CALLBACK_OBJECT
  | ACCESS_DENIED_CALLBACK_OBJECT
  | SYSTEM_AUDIT_CALLBACK
  | SYSTEM_ALARM_CALLBACK
  | SYSTEM_AUDIT_CALLBACK_OBJECT
  | SYSTEM_ALARM_CALLBACK_OBJECT
  | SYSTEM_MANDATORY_LABEL
  | SYSTEM_RESOURCE_ATTRIBUTE
  | SYSTEM_SCOPED_POLICY_ID
  deriving DecidableEq

/-- Integer code of each `ACEType` member. -/
def ACEType.val : ACEType → Nat
  | .ACCESS_ALLOWED => 0
  | .ACCESS_DENIED => 1
  | .SYSTEM_AUDIT => 2
  | .SYSTEM_ALARM => 3
  | .ACCESS_ALLOWED_COMPOUND => 4
  | .ACCESS_ALLOWED_OBJECT => 5
  | .ACCESS_DENIED_OBJECT => 6
  | .SYSTEM_AUDIT_OBJECT => 7
  | .SYSTEM_ALARM_OBJECT => 8
  | .ACCESS_ALLOWED_CALLBACK => 9
  | .ACCESS_DENIED_CALLBACK => 10
  | .ACCESS_ALLOWED_CALLBACK_OBJECT => 11
  | .ACCESS_DENIED_CALLBACK_OBJECT => 12
  | .SYSTEM_AUDIT_CALLBACK => 13
  | .SYSTEM_ALARM_CALLBACK => 14
  | .SYSTEM_AUDIT_CALLBACK_OBJECT => 15
  | .SYSTEM_ALARM_CALLBACK_OBJECT => 16
  | .SYSTEM_MANDATORY_LABEL => 17
  | .SYSTEM_RESOURCE_ATTRIBUTE => 18
  | .SYSTEM_SCOPED_POLICY_ID => 19

/-- Model of the IntEnum constructor `ACEType(n)`: `some` member for a known
code, `none` when Python would raise `ValueError`. -/
def ACEType.ofNat? : Nat → Option ACEType
  | 0 => some .ACCESS_ALLOWED
  | 1 => some .ACCESS_DENIED
  | 2 => some .SYSTEM_AUDIT
  | 3 => some .SYSTEM_ALARM
  | 4 => some .ACCESS_ALLOWED_COMPOUND
  | 5 => some .ACCESS_ALLOWED_OBJECT
  | 6 => some .ACCESS_DENIED_OBJECT
  | 7 => some .SYSTEM_AUDIT_OBJECT
  | 8 => some .SYSTEM_ALARM_OBJECT
  | 9 => some .ACCESS_ALLOWED_CALLBACK
  | 10 => some .ACCESS_DENIED_CALLBACK
  | 11 => some .ACCESS_ALLOWED_CALLBACK_OBJECT
  | 12 => some .ACCESS_DENIED_CALLBACK_OBJECT
  | 13 => some .SYSTEM_AUDIT_CALLBACK
  | 14 => some .SYSTEM_ALARM_CALLBACK
  | 15 => some .SYSTEM_AUDIT_CALLBACK_OBJECT
  | 16 => some .SYSTEM_ALARM_CALLBACK_OBJECT
  | 17 => some .SYSTEM_MANDATORY_LABEL
  | 18 => some .SYSTEM_RESOURCE_ATTRIBUTE
  | 19 => some .SYSTEM_SCOPED_POLICY_ID
  | _ => none

/-- The `ACERight` IntEnum of the source. -/
inductive ACERight where
  | GENERIC_READ
  | GENERIC_WRITE
  | GENERIC_EXECUTE
  | GENERIC_ALL
  | MAXIMUM_ALLOWED
  | ACCESS_SYSTEM_SECURITY
  | SYNCHRONIZE
  | WRITE_OWNER
  | WRITE_DACL
  | READ_CONTROL
  | DELETE
  | DS_CONTROL_ACCESS
  | DS_CREATE_CHILD
  | DS_DELETE_CHILD
  | ACTRL_DS_LIST
  | DS_SELF
  | DS_READ_PROP
  | DS_WRITE_PROP
  | DS_DELETE_TREE
  | DS_LIST_OBJECT
  deriving DecidableEq

/-- Integer value of each `ACERight` member, exactly as written in the source
(note `GENERIC_WRITE = 0x4000000`, bit 26, as in the code). -/
def ACERight.val : ACERight → Nat
  | .GENERIC_READ => 0x80000000
  | .GENERIC_WRITE => 0x4000000
  | .GENERIC_EXECUTE => 0x20000000
  | .GENERIC_ALL => 0x10000000
  | .MAXIMUM_ALLOWED => 0x02000000
  | .ACCESS_SYSTEM_SECURITY => 0x01000000
  | .SYNCHRONIZE => 0x00100000
  | .WRITE_OWNER => 0x00080000
  | .WRITE_DACL => 0x00040000
  | .READ_CONTROL => 0x00020000
  | .DELETE => 0x00010000
  | .DS_CONTROL_ACCESS => 0x00000100
  | .DS_CREATE_CHILD => 0x00000001
  | .DS_DELETE_CHILD => 0x00000002
  | .ACTRL_DS_LIST => 0x00000004
  | .DS_SELF => 0x00000008
  | .DS_READ_PROP => 0x00000010
  | .DS_WRITE_PROP => 0x00000020
  | .DS_DELETE_TREE => 0x00000040
  | .DS_LIST_OBJECT => 0x00000080

/-- Bit index of each `ACERight` value (every member is a single bit). -/
def ACERight.bit : ACERight → Nat
  | .GENERIC_READ => 31
  | .GENERIC_WRITE => 26
  | .GENERIC_EXECUTE => 29
  | .GENERIC_ALL => 28
  | .MAXIMUM_ALLOWED => 25
  | .ACCESS_SYSTEM_SECURITY => 24
  | .SYNCHRONIZE => 20
  | .WRITE_OWNER => 19
  | .WRITE_DACL => 18
  | .READ_CONTROL => 17
  | .DELETE => 16
  | .DS_CONTROL_ACCESS => 8
  | .DS_CREATE_CHILD => 0
  | .DS_DELETE_CHILD => 1
  | .ACTRL_DS_LIST => 2
  | .DS_SELF => 3
  | .DS_READ_PROP => 4
  | .DS_WRITE_PROP => 5
  | .DS_DELETE_TREE => 6
  | .DS_LIST_OBJECT => 7

/-- Iteration order of `ACERight` (definition order of the IntEnum). -/
def ACERight.all : List ACERight :=
  [.GENERIC_READ, .GENERIC_WRITE, .GENERIC_EXECUTE, .GENERIC_ALL,
   .MAXIMUM_ALLOWED, .ACCESS_SYSTEM_SECURITY, .SYNCHRONIZE, .WRITE_OWNER,
   .WRITE_DACL, .READ_CONTROL, .DELETE, .DS_CONTROL_ACCESS, .DS_CREATE_CHILD,
   .DS_DELETE_CHILD, .ACTRL_DS_LIST, .DS_SELF, .DS_READ_PROP, .DS_WRITE_PROP,
   .DS_DELETE_TREE, .DS_LIST_OBJECT]

/-- The `ACLRevision` IntEnum of the source. -/
inductive ACLRevision where
  | ACL_REVISION
  | ACL_REVISION_DS
  deriving DecidableEq

/-- Integer value of each `ACLRevision` member. -/
def ACLRevision.val : ACLRevision → Nat
  | .ACL_REVISION => 0x02
  | .ACL_REVISION_DS => 0x04

/-- Model of `ACLRevision(n)`: `none` when Python would raise `ValueError`. -/
def ACLRevision.ofNat? : Nat → Option ACLRevision
  | 2 => some .ACL_REVISION
  | 4 => some .ACL_REVISION_DS
  | _ => none

/-- Little-endian 16-bit read at byte offset `i` (as `struct.unpack "<H"`). -/
def le16 (b : List Nat) (i : Nat) : Nat :=
  b.getD i 0 + 256 * b.getD (i + 1) 0

/-- Little-endian 32-bit read at byte offset `i` (as `struct.unpack "<I"`). -/
def le32 (b : List Nat) (i : Nat) : Nat :=
  b.getD i 0 + 256 * b.getD (i + 1) 0 + 65536 * b.getD (i + 2) 0 +
    16777216 * b.getD (i + 3) 0

/-- Big-endian 32-bit read at byte offset `i` (as `struct.unpack ">L"`). -/
def be32 (b : List Nat) (i : Nat) : Nat :=
  16777216 * b.getD i 0 + 65536 * b.getD (i + 1) 0 + 256 * b.getD (i + 2) 0 +
    b.getD (i + 3) 0

/-- Model of Python `uuid.UUID`: the decoder only constructs GUIDs via
`uuid.UUID(bytes_le=slice)` and never inspects them, so the value is modelled
by the raw 16-byte little-endian slice it was built from. -/
structure PyUUID where
  bytes_le : List Nat
  deriving DecidableEq

/-- Model of `uuid.UUID(bytes_le=b)`: raises `ValueError` unless `b` is exactly
16 bytes. -/
def uuidFromBytesLE (b : List Nat) : Except PyErr PyUUID :=
  if b.length = 16 then .ok ⟨b⟩ else .error .invalidUUID

/-- Modelled from the spec: the Trustee Identifier collaborator (the `SID`
class of `src/bonsai/active_directory/sid.py`, which is not part of the given
sources).  Per the spec it is "constructible from a little-endian byte slice,
exposing at minimum its total encoded byte length (header size plus 4 bytes
per variable sub-element it declares)": an 8-byte header (1-byte revision,
1-byte sub-element count, 6-byte identifier authority) followed by `count`
4-byte little-endian subauthorities. -/
structure SID where
  revision : Nat
  identifier_authority : List Nat
  subauthorities : List Nat
  deriving DecidableEq

/-- Modelled from the spec: parsing a Trustee Identifier from a little-endian
byte slice.  A buffer too short for the 8-byte header or for the declared
`count` 4-byte sub-elements raises `struct.error` (reported here as the number
of bytes the failing fixed-size read required), which the ACE decoder's
`except struct.error` clause converts to its malformed-structure error. -/
def SID.from_bytes_le (b : List Nat) : Except Nat SID :=
  if b.length < 8 then .error 8
  else
    if b.length < 8 + 4 * b.getD 1 0 then .error (4 * b.getD 1 0)
    else
      .ok ⟨b.getD 0 0, (b.drop 2).take 6,
           (List.range (b.getD 1 0)).map (fun i => le32 b (8 + 4 * i))⟩

/-- The ACE value object (fields of `ACE.__init__` plus the `size` set by
`from_binary`).  The Python flag set is modelled as the sublist of
`ACEFlag.all` whose bits are set. -/
structure ACE where
  type : ACEType
  flags : List ACEFlag
  mask : Nat
  trustee_sid : SID
  object_type : Option PyUUID
  inherited_object_type : Option PyUUID
  application_data : Option (List Nat)
  size : Nat
  deriving DecidableEq

/-- The tuple of object-variant ACE types tested at line 102 of the source. -/
def objectACETypes : List ACEType :=
  [.ACCESS_ALLOWED_OBJECT, .ACCESS_DENIED_OBJECT, .SYSTEM_AUDIT_OBJECT,
   .SYSTEM_ALARM_OBJECT, .ACCESS_ALLOWED_CALLBACK_OBJECT,
   .ACCESS_DENIED_CALLBACK_OBJECT, .SYSTEM_AUDIT_CALLBACK_OBJECT,
   .SYSTEM_ALARM_CALLBACK_OBJECT]

/-- The tuple of ACE types tested at line 122 of the source, for which
`application_data` is captured.  Note that `SYSTEM_ALARM_CALLBACK`,
`SYSTEM_AUDIT_CALLBACK_OBJECT` and `SYSTEM_ALARM_CALLBACK_OBJECT` are absent
from this tuple in the code. -/
def applicationDataACETypes : List ACEType :=
  [.ACCESS_ALLOWED_CALLBACK, .ACCESS_DENIED_CALLBACK,
   .ACCESS_ALLOWED_CALLBACK_OBJECT, .ACCESS_DENIED_CALLBACK_OBJECT,
   .SYSTEM_AUDIT_OBJECT, .SYSTEM_AUDIT_CALLBACK]

/-- The object-variant branch of `ACE.from_binary` (lines 102-119): for an
object-variant type, read the 4-byte little-endian object-flags word at offset
8, then conditionally read the two 16-byte GUIDs gated by bits 0 and 1.
Returns the two optional GUIDs and the cursor position after the branch. -/
def parseObjectPart (t : ACEType) (data : List Nat) :
    Except PyErr (Option PyUUID × Option PyUUID × Nat) :=
  if t ∈ objectACETypes then
    if data.length < 12 then .error (.notValidACE 4)
    else
      if le32 data 8 &&& 1 ≠ 0 then
        match uuidFromBytesLE ((data.drop 12).take 16) with
        | .error e => .error e
        | .ok u1 =>
          if le32 data 8 &&& 2 ≠ 0 then
            match uuidFromBytesLE ((data.drop 28).take 16) with
            | .error e => .error e
            | .ok u2 => .ok (some u1, some u2, 44)
          else .ok (some u1, none, 28)
      else
        if le32 data 8 &&& 2 ≠ 0 then
          match uuidFromBytesLE ((data.drop 12).take 16) with
          | .error e => .error e
          | .ok u2 => .ok (none, some u2, 28)
        else .ok (none, none, 12)
  else .ok (none, none, 8)

/-- Embedding of `ACE.from_binary` (lines 92-143 of the source), for a bytes
argument.  `struct.unpack("<BBH", data[:4])` and `struct.unpack(">L",
data[4:8])` fail unless the buffer holds at least 4 resp. 8 bytes; the type
code is validated by `ACEType(ace_type)` at the line-102 membership test; the
declared `size` is never compared with the buffer length; `application_data`
is `data[pos:size]` exactly for the types listed at line 122. -/
def ACE.from_binary (data : List Nat) : Except PyErr ACE :=
  if data.length < 4 then .error (.notValidACE 4)
  else
    if data.length < 8 then .error (.notValidACE 4)
    else
      match ACEType.ofNat? (data.getD 0 0) with
      | none => .error (.invalidACEType (data.getD 0 0))
      | some t =>
        match parseObjectPart t data with
        | .error e => .error e
        | .ok (ot, iot, pos) =>
          match SID.from_bytes_le (data.drop pos) with
          | .error needed => .error (.notValidACE needed)
          | .ok sid =>
            .ok { type := t
                  flags := ACEFlag.all.filter
                    (fun f => data.getD 1 0 &&& f.val ≠ 0)
                  mask := be32 data 4
                  trustee_sid := sid
                  object_type := ot
                  inherited_object_type := iot
                  application_data :=
                    if t ∈ applicationDataACETypes then
                      some ((data.drop (pos + 8 + 4 * sid.subauthorities.length)).take
                        (le16 data 2 - (pos + 8 + 4 * sid.subauthorities.length)))
                    else none
                  size := le16 data 2 }

/-- The derived `rights` property (lines 161-163): the set of `ACERight`
members whose bit is set in the stored mask. -/
def ACE.rights (a : ACE) : List ACERight :=
  ACERight.all.filter (fun r => a.mask &&& r.val ≠ 0)

/-- The ACL value object (fields of `ACL.__init__` plus the `size` set by
`from_binary`). -/
structure ACL where
  revision : ACLRevision
  sbz1 : Nat
  sbz2 : Nat
  aces : List ACE
  size : Nat
  deriving DecidableEq

/-- The ACE loop of `ACL.from_binary` (lines 199-203): starting at cursor
`pos`, decode `count` ACEs from `data`, advancing the cursor by each decoded
entry's reported `size`.  Returns the decoded entries and the final cursor. -/
def parseACEs (data : List Nat) : Nat → Nat → Except PyErr (List ACE × Nat)
  | pos, 0 => .ok ([], pos)
  | pos, n + 1 =>
    match ACE.from_binary (data.drop pos) with
    | .error e => .error e
    | .ok ace =>
      match parseACEs data (pos + ace.size) n with
      | .error e => .error e
      | .ok (rest, fin) => .ok (ace :: rest, fin)

/-- Embedding of `ACL.from_binary` (lines 193-208 of the source), for a bytes
argument.  The 8-byte header is unpacked with `struct.unpack("<BBHHH")`
(failure wrapped as the ACL malformed-structure error); then the ACE loop
runs; the revision is validated by `ACLRevision(rev)` only afterwards, at
construction.  Errors raised by the inner `ACE.from_binary` calls are
`ValueError`s, not `struct.error`, so the `except struct.error` clause does
not catch them: they propagate unchanged. -/
def ACL.from_binary (data : List Nat) : Except PyErr ACL :=
  if data.length < 8 then .error (.notValidACL 8)
  else
    match parseACEs data 8 (le16 data 4) with
    | .error e => .error e
    | .ok (aces, _) =>
      match ACLRevision.ofNat? (data.getD 0 0) with
      | none => .error (.invalidACLRevision (data.getD 0 0))
      | some rev =>
        .ok { revision := rev
              sbz1 := data.getD 1 0
              sbz2 := le16 data 6
              aces := aces
              size := le16 data 2 }

/-- A Python argument value as far as the `isinstance(data, bytes)` guards are
concerned: either a bytes object or some other object (described by the text
of its `repr`). -/
inductive PyObj where
  | bytes (data : List Nat)
  | other (descr : String)
  deriving DecidableEq

/-- Embedding of `ACE.from_binary` including the isinstance guard at lines
94-95: a non-bytes argument raises `TypeError` before any parsing. -/
def ACE.from_binary_py : PyObj → Except PyErr ACE
  | .bytes d => ACE.from_binary d
  | .other _ => .error (.typeError "The data parameter must be bytes")

/-- Embedding of `ACL.from_binary` including the isinstance guard at lines
195-196: a non-bytes argument raises `TypeError` before any parsing. -/
def ACL.from_binary_py : PyObj → Except PyErr ACL
  | .bytes d => ACL.from_binary d
  | .other _ => .error (.typeError "The data parameter must be bytes")

/-- Tests whether a decode outcome is the `TypeError` raised by the isinstance
guards (as opposed to the `ValueError`s used for decode failures). -/
def isTypeErrorResult {α : Type} : Except PyErr α → Bool
  | .error (.typeError _) => true
  | _ => false

/-- Successful `uuid.UUID(bytes_le=b)` returns the wrapper of `b`, and `b` is
exactly 16 bytes. -/
theorem uuidFromBytesLE_ok (b : List Nat) (u : PyUUID)
    (h : uuidFromBytesLE b = .ok u) : u = ⟨b⟩ ∧ b.length = 16 := by
  unfold uuidFromBytesLE at h
  split at h
  · exact ⟨(Except.ok.injEq _ _ ▸ h).symm, by assumption⟩
  · exact Except.noConfusion h

/-- A failing `uuid.UUID(bytes_le=b)` is always the UUID `ValueError`. -/
theorem uuidFromBytesLE_error (b : List Nat) (e : PyErr)
    (h : uuidFromBytesLE b = .error e) : e = .invalidUUID := by
  unfold uuidFromBytesLE at h
  split at h
  · exact Except.noConfusion h
  · exact (Except.error.injEq _ _ ▸ h).symm

/-- Inversion of the object-variant branch: for types in the object family the
optional GUIDs are determined by bits 0 and 1 of the little-endian object-flags
word at offset 8, read (in that order) at offsets 12 and 12/28; for all other
types the branch reads nothing and leaves the cursor at 8. -/
theorem parseObjectPart_ok_elim (t : ACEType) (data : List Nat)
    (ot iot : Option PyUUID) (pos : Nat)
    (h : parseObjectPart t data = .ok (ot, iot, pos)) :
    (t ∈ objectACETypes →
      ot = (if le32 data 8 &&& 1 ≠ 0 then some ⟨(data.drop 12).take 16⟩ else none) ∧
      iot = (if le32 data 8 &&& 2 ≠ 0 then
              some ⟨(data.drop (if le32 data 8 &&& 1 ≠ 0 then 28 else 12)).take 16⟩
            else none)) ∧
    (t ∉ objectACETypes → ot = none ∧ iot = none ∧ pos = 8) := by
  unfold parseObjectPart at h
  split at h
  case isTrue hmem =>
    refine ⟨fun _ => ?_, fun hn => absurd hmem hn⟩
    split at h
    · exact Except.noConfusion h
    · split at h
      case isTrue hb0 =>
        split at h
        case h_1 e heq => exact Except.noConfusion h
        case h_2 u1 heq =>
          obtain ⟨rfl, -⟩ := uuidFromBytesLE_ok _ _ heq
          split at h
          case isTrue hb1 =>
            split at h
            case h_1 e heq2 => exact Except.noConfusion h
            case h_2 u2 heq2 =>
              obtain ⟨rfl, -⟩ := uuidFromBytesLE_ok _ _ heq2
              simp only [Except.ok.injEq, Prod.mk.injEq] at h
              obtain ⟨rfl, rfl, rfl⟩ := h
              rw [if_pos hb0, if_pos hb1, if_pos hb0]
              exact ⟨rfl, rfl⟩
          case isFalse hb1 =>
            simp only [Except.ok.injEq, Prod.mk.injEq] at h
            obtain ⟨rfl, rfl, rfl⟩ := h
            rw [if_pos hb0, if_neg hb1]
            exact ⟨rfl, rfl⟩
      case isFalse hb0 =>
        split at h
        case isTrue hb1 =>
          split at h
          case h_1 e heq => exact Except.noConfusion h
          case h_2 u2 heq =>
            obtain ⟨rfl, -⟩ := uuidFromBytesLE_ok _ _ heq
            simp only [Except.ok.injEq, Prod.mk.injEq] at h
            obtain ⟨rfl, rfl, rfl⟩ := h
            rw [if_neg hb0, if_pos hb1, if_neg hb0]
            exact ⟨rfl, rfl⟩
        case isFalse hb1 =>
          simp only [Except.ok.injEq, Prod.mk.injEq] at h
          obtain ⟨rfl, rfl, rfl⟩ := h
          rw [if_neg hb0, if_neg hb1]
          exact ⟨rfl, rfl⟩
  case isFalse hmem =>
    refine ⟨fun hm => absurd hm hmem, fun _ => ?_⟩
    simp only [Except.ok.injEq, Prod.mk.injEq] at h
    obtain ⟨rfl, rfl, rfl⟩ := h
    exact ⟨rfl, rfl, rfl⟩

/-- Inversion of `ACE.from_binary`: a successful decode determines every field
of the resulting ACE from the buffer — type from byte 0, flag set from byte 1,
declared size from the little-endian u16 at bytes 2-3, mask from the
big-endian u32 at bytes 4-7, the optional GUIDs from the object-variant
branch, the trustee from the cursor after it, and `application_data` as
`data[pos:size]` exactly for the line-122 types. -/
theorem ACE.from_binary_ok_elim (data : List Nat) (ace : ACE)
    (h : ACE.from_binary data = .ok ace) :
    ∃ t ot iot pos sid,
      ACEType.ofNat? (data.getD 0 0) = some t ∧
      parseObjectPart t data = .ok (ot, iot, pos) ∧
      SID.from_bytes_le (data.drop pos) = .ok sid ∧
      8 ≤ data.length ∧
      ace = { type := t
              flags := ACEFlag.all.filter (fun f => data.getD 1 0 &&& f.val ≠ 0)
              mask := be32 data 4
              trustee_sid := sid
              object_type := ot
              inherited_object_type := iot
              application_data :=
                if t ∈ applicationDataACETypes then
                  some ((data.drop (pos + 8 + 4 * sid.subauthorities.length)).take
                    (le16 data 2 - (pos + 8 + 4 * sid.subauthorities.length)))
                else none
              size := le16 data 2 } := by
  unfold ACE.from_binary at h
  split at h
  · exact Except.noConfusion h
  case isFalse h4 =>
    split at h
    · exact Except.noConfusion h
    case isFalse h8 =>
      split at h
      · exact Except.noConfusion h
      case h_2 t ht =>
        rcases hpo : parseObjectPart t data with e | ⟨ot, iot, pos⟩
        · rw [hpo] at h
          exact Except.noConfusion h
        · rw [hpo] at h
          dsimp only at h
          rcases hsid : SID.from_bytes_le (data.drop pos) with needed | sid
          · rw [hsid] at h
            exact Except.noConfusion h
          · rw [hsid] at h
            dsimp only at h
            refine ⟨t, ot, iot, pos, sid, ht, hpo, hsid, by omega, ?_⟩
            exact ((Except.ok.injEq _ _).mp h).symm

/-- A mask ANDed with a single-bit constant is nonzero exactly when the
corresponding bit of the mask is set. -/
theorem and_single_bit (m k c : Nat) (hc : c = 2 ^ k) :
    (m &&& c ≠ 0) ↔ m.testBit k = true := by
  subst hc
  rw [Nat.and_two_pow]
  cases h : m.testBit k <;> simp

/-- Claim C5: for every successfully decoded ACE, the mask equals the 4-byte
big-endian unsigned integer at bytes 4-7 of the input, immediately after the
4-byte header whose fields (type at byte 0, flags at byte 1, size as a
little-endian u16 at bytes 2-3) are decoded little-endian. -/
theorem ace_mask_big_endian_after_le_header (data : List Nat) (ace : ACE)
    (h : ACE.from_binary data = .ok ace) :
    ace.mask = be32 data 4 ∧
    ACEType.ofNat? (data.getD 0 0) = some ace.type ∧
    ace.flags = ACEFlag.all.filter (fun f => data.getD 1 0 &&& f.val ≠ 0) ∧
    ace.size = le16 data 2 := by
  obtain ⟨t, ot, iot, pos, sid, ht, -, -, -, rfl⟩ :=
    ACE.from_binary_ok_elim data ace h
  exact ⟨rfl, ht, rfl, rfl⟩

/-- An ACCESS_DENIED entry with flag byte 3, declared size 24 and mask bytes
0x12 0x34 0x56 0x78 (big-endian), used to witness C5. -/
def c5buf : List Nat := [1, 3, 24, 0, 18, 52, 86, 120, 1, 0, 0, 0, 0, 0, 0, 5]

/-- The ACE decoded from `c5buf`. -/
def c5ace : ACE :=
  ((ACE.from_binary c5buf).toOption).getD
    ⟨.ACCESS_ALLOWED, [], 0, ⟨0, [], []⟩, none, none, none, 0⟩

/-- Witness for C5 at `c5buf`: the mask is the big-endian value 0x12345678 and
the size the little-endian value 24. -/
theorem ace_mask_big_endian_after_le_header_witness :
    c5ace.mask = 305419896 ∧
    ACEType.ofNat? (c5buf.getD 0 0) = some c5ace.type ∧
    c5ace.flags = ACEFlag.all.filter (fun f => c5buf.getD 1 0 &&& f.val ≠ 0) ∧
    c5ace.size = 24 :=
  ace_mask_big_endian_after_le_header c5buf c5ace rfl

/-- Claim C6: the derived `rights` accessor returns exactly the set of named
`ACERight` constants whose bit is set in the mask; in particular mask
0x80000000 yields the singleton GENERIC_READ. -/
theorem ace_rights_exactly_set_bits (a : ACE) :
    (∀ r : ACERight, r ∈ a.rights ↔ a.mask.testBit r.bit = true) ∧
    (a.mask = 0x80000000 → a.rights = [ACERight.GENERIC_READ]) := by
  constructor
  · intro r
    unfold ACE.rights
    rw [List.mem_filter]
    have hall : r ∈ ACERight.all := by cases r <;> decide
    simp only [hall, true_and, decide_eq_true_eq]
    cases r <;> exact and_single_bit a.mask _ _ (by decide)
  · intro hm
    unfold ACE.rights
    rw [hm]
    decide

/-- An ACE whose mask is exactly 0x80000000, used to witness C6. -/
def c6ace : ACE :=
  ⟨.ACCESS_ALLOWED, [], 0x80000000, ⟨1, [], []⟩, none, none, none, 0⟩

/-- Witness for C6: the rights of `c6ace` are exactly GENERIC_READ. -/
theorem ace_rights_exactly_set_bits_witness :
    c6ace.rights = [ACERight.GENERIC_READ] :=
  (ace_rights_exactly_set_bits c6ace).2 rfl

/-- Claim C1 (amended): for every buffer that decodes successfully,
`application_data` is captured exactly when the entry's type is one of the six
types in the source's line-122 tuple — ACCESS_ALLOWED_CALLBACK,
ACCESS_DENIED_CALLBACK, ACCESS_ALLOWED_CALLBACK_OBJECT,
ACCESS_DENIED_CALLBACK_OBJECT, SYSTEM_AUDIT_OBJECT, SYSTEM_AUDIT_CALLBACK —
and is absent for every other type, including the callback-family members
SYSTEM_ALARM_CALLBACK, SYSTEM_AUDIT_CALLBACK_OBJECT and
SYSTEM_ALARM_CALLBACK_OBJECT. -/
theorem ace_application_data_iff_capture_type (data : List Nat) (ace : ACE)
    (h : ACE.from_binary data = .ok ace) :
    ace.application_data.isSome = true ↔ ace.type ∈ applicationDataACETypes := by
  obtain ⟨t, ot, iot, pos, sid, -, -, -, -, rfl⟩ :=
    ACE.from_binary_ok_elim data ace h
  by_cases ht : t ∈ applicationDataACETypes
  · simp [ht]
  · simp [ht]

/-- A SYSTEM_ALARM_CALLBACK entry (type code 14) with declared size 20 and four
trailing payload bytes after the 16 consumed ones. -/
def c1buf : List Nat :=
  [14, 0, 20, 0, 0, 0, 0, 0, 1, 0, 1, 2, 3, 4, 5, 6, 9, 9, 9, 9]

/-- Counterexample for C1 as stated: SYSTEM_ALARM_CALLBACK belongs to the
callback family, yet the entry decodes successfully with `application_data`
absent (the trailing payload bytes are dropped). -/
theorem ace_alarm_callback_no_application_data :
    (ACE.from_binary c1buf).toOption.map
        (fun a => (a.type, a.application_data, a.size)) =
      some (ACEType.SYSTEM_ALARM_CALLBACK, none, 20) ∧
    c1buf.length = 20 := ⟨rfl, rfl⟩

/-- A SYSTEM_AUDIT_CALLBACK entry (type code 13), same layout as `c1buf`. -/
def c1wbuf : List Nat :=
  [13, 0, 20, 0, 0, 0, 0, 0, 1, 0, 1, 2, 3, 4, 5, 6, 9, 9, 9, 9]

/-- The ACE decoded from `c1wbuf`. -/
def c1wace : ACE :=
  ((ACE.from_binary c1wbuf).toOption).getD
    ⟨.ACCESS_ALLOWED, [], 0, ⟨0, [], []⟩, none, none, none, 0⟩

/-- Witness for the amended C1 at `c1wbuf`: SYSTEM_AUDIT_CALLBACK is in the
capture set, so its application_data is present. -/
theorem ace_application_data_iff_capture_type_witness :
    c1wace.application_data.isSome = true :=
  (ace_application_data_iff_capture_type c1wbuf c1wace rfl).mpr (by decide)

/-- Claim C4: for every successfully decoded ACE of an object-variant type,
`object_type` is present iff bit 0 of the little-endian object-flags word at
offset 8 is set (the GUID being the 16 bytes at offset 12), and
`inherited_object_type` is present iff bit 1 is set (its 16 bytes following
the first GUID when that is present, i.e. at offset 28, else at offset 12);
for non-object types both fields are absent. -/
theorem ace_object_guid_presence_bits (data : List Nat) (ace : ACE)
    (h : ACE.from_binary data = .ok ace) :
    (ace.type ∈ objectACETypes →
      ace.object_type =
        (if le32 data 8 &&& 1 ≠ 0 then some ⟨(data.drop 12).take 16⟩ else none) ∧
      ace.inherited_object_type =
        (if le32 data 8 &&& 2 ≠ 0 then
          some ⟨(data.drop (if le32 data 8 &&& 1 ≠ 0 then 28 else 12)).take 16⟩
        else none)) ∧
    (ace.type ∉ objectACETypes →
      ace.object_type = none ∧ ace.inherited_object_type = none) := by
  obtain ⟨t, ot, iot, pos, sid, -, hpo, -, -, rfl⟩ :=
    ACE.from_binary_ok_elim data ace h
  obtain ⟨hin, hout⟩ := parseObjectPart_ok_elim t data ot iot pos hpo
  exact ⟨hin, fun hm => ⟨(hout hm).1, (hout hm).2.1⟩⟩

/-- An ACCESS_ALLOWED_OBJECT entry with object-flags 3 (both presence bits),
two 16-byte GUIDs, and a one-subauthority trustee. -/
def c4buf : List Nat :=
  [5, 0, 52, 0, 0, 0, 0, 1, 3, 0, 0, 0] ++
    (List.range 16).map (fun i => i + 1) ++
    (List.range 16).map (fun i => i + 17) ++
    [1, 1, 0, 0, 0, 0, 0, 5, 7, 0, 0, 0]

/-- The ACE decoded from `c4buf`. -/
def c4ace : ACE :=
  ((ACE.from_binary c4buf).toOption).getD
    ⟨.ACCESS_ALLOWED, [], 0, ⟨0, [], []⟩, none, none, none, 0⟩

/-- Witness for C4 at `c4buf`: both presence bits set, so both GUIDs are read,
in order, at offsets 12 and 28. -/
theorem ace_object_guid_presence_bits_witness :
    c4ace.object_type = some ⟨(c4buf.drop 12).take 16⟩ ∧
    c4ace.inherited_object_type = some ⟨(c4buf.drop 28).take 16⟩ := by
  have h := (ace_object_guid_presence_bits c4buf c4ace rfl).1 (by decide)
  rw [if_pos (by decide), if_pos (by decide), if_pos (by decide)] at h
  exact h

/-- Claim C2 (amended): `ACE.from_binary` never validates the declared
`aceSize` against the buffer length — every successful decode stores the
declared little-endian u16 at bytes 2-3 verbatim as the ACE's size, even when
it exceeds the buffer length (no malformed-structure failure occurs in that
case, as the paired counterexample shows at a concrete buffer). -/
theorem ace_declared_size_stored_unvalidated (data : List Nat) (ace : ACE)
    (h : ACE.from_binary data = .ok ace) :
    ace.size = le16 data 2 := by
  obtain ⟨t, ot, iot, pos, sid, -, -, -, -, rfl⟩ :=
    ACE.from_binary_ok_elim data ace h
  rfl

/-- A 16-byte ACCESS_ALLOWED entry whose declared size field is 100. -/
def c2buf : List Nat := [0, 0, 100, 0, 0, 0, 0, 31, 1, 0, 0, 0, 0, 0, 0, 5]

/-- The ACE decoded from `c2buf`. -/
def c2ace : ACE :=
  ((ACE.from_binary c2buf).toOption).getD
    ⟨.ACCESS_ALLOWED, [], 0, ⟨0, [], []⟩, none, none, none, 0⟩

/-- Counterexample for C2 as stated: the declared aceSize 100 exceeds the
16-byte buffer, yet decoding succeeds (returning size 100) instead of failing
with a malformed-structure error. -/
theorem ace_oversized_declared_size_still_decodes :
    (ACE.from_binary c2buf).toOption.map ACE.size = some 100 ∧
    c2buf.length = 16 := ⟨rfl, rfl⟩

/-- Witness for the amended C2 at `c2buf`: the stored size is the declared
little-endian value 100. -/
theorem ace_declared_size_stored_unvalidated_witness : c2ace.size = 100 :=
  ace_declared_size_stored_unvalidated c2buf c2ace rfl

/-- A failing run of the ACE loop surfaces an error produced by some inner
`ACE.from_binary` call. -/
theorem parseACEs_error_from_ace (data : List Nat) (n : Nat) :
    ∀ (pos : Nat) (e : PyErr), parseACEs data pos n = .error e →
      ∃ p, ACE.from_binary (data.drop p) = .error e := by
  induction n with
  | zero => exact fun pos e h => Except.noConfusion h
  | succ n ih =>
    intro pos e h
    unfold parseACEs at h
    rcases hace : ACE.from_binary (data.drop pos) with e2 | ace
    · rw [hace] at h
      dsimp only at h
      cases (Except.error.injEq _ _).mp h
      exact ⟨pos, hace⟩
    · rw [hace] at h
      dsimp only at h
      rcases hrest : parseACEs data (pos + ace.size) n with e2 | ⟨rest, fin⟩
      · rw [hrest] at h
        dsimp only at h
        cases (Except.error.injEq _ _).mp h
        exact ih _ _ hrest
      · rw [hrest] at h
        dsimp only at h
        exact Except.noConfusion h

/-- Claim C3 (amended): when an inner ACE decode fails during `ACL.from_binary`
(for a buffer long enough for the ACL header), the ACE-level error propagates
to the ACL caller unchanged — the ACL decoder adds no context of its own, and
the surfaced error is exactly the error of some inner `ACE.from_binary` call. -/
theorem acl_propagates_inner_ace_error_unchanged (data : List Nat) (e : PyErr)
    (h8 : 8 ≤ data.length)
    (h : parseACEs data 8 (le16 data 4) = .error e) :
    ACL.from_binary data = .error e ∧
    ∃ p, ACE.from_binary (data.drop p) = .error e := by
  refine ⟨?_, parseACEs_error_from_ace data _ 8 e h⟩
  unfold ACL.from_binary
  rw [if_neg (by omega), h]

/-- An ACL buffer with a valid header declaring one ACE, followed by a single
garbage byte on which the inner ACE decode fails. -/
def c3buf : List Nat := [2, 0, 9, 0, 1, 0, 0, 0, 99]

/-- Counterexample for C3 as stated: the error surfaced by `ACL.from_binary` is
the inner ACE error itself (the ACE malformed-structure `ValueError`), not an
error carrying ACL-parsing context (which would be `notValidACL` or another
ACL-level error). -/
theorem acl_inner_ace_error_has_no_acl_context :
    ACL.from_binary c3buf = .error (.notValidACE 4) ∧
    ACE.from_binary (c3buf.drop 8) = .error (.notValidACE 4) := ⟨rfl, rfl⟩

/-- Witness for the amended C3 at `c3buf`. -/
theorem acl_propagates_inner_ace_error_unchanged_witness :
    ACL.from_binary c3buf = .error (.notValidACE 4) ∧
    ∃ p, ACE.from_binary (c3buf.drop p) = .error (.notValidACE 4) :=
  acl_propagates_inner_ace_error_unchanged c3buf _ (by decide) rfl

/-- Claim C7 (amended): a buffer whose first byte is an unknown type code
always fails to decode — with the error identifying the offending type value
whenever the buffer is at least 8 bytes long (so that the two header unpacks
succeed and the type check at line 102 is reached); a shorter such buffer
fails earlier with the malformed-structure error of the failing fixed-size
read.  No partial ACE is ever returned. -/
theorem ace_unknown_type_code_fails (b : Nat) (rest : List Nat)
    (hb : ACEType.ofNat? b = none) :
    (∃ e, ACE.from_binary (b :: rest) = .error e) ∧
    (8 ≤ (b :: rest).length →
      ACE.from_binary (b :: rest) = .error (.invalidACEType b)) := by
  have hget : (b :: rest).getD 0 0 = b := rfl
  constructor
  · by_cases h4 : (b :: rest).length < 4
    · exact ⟨_, by unfold ACE.from_binary; rw [if_pos h4]⟩
    · by_cases h8 : (b :: rest).length < 8
      · exact ⟨_, by unfold ACE.from_binary; rw [if_neg h4, if_pos h8]⟩
      · refine ⟨.invalidACEType b, ?_⟩
        unfold ACE.from_binary
        rw [if_neg h4, if_neg h8, hget, hb]
  · intro hlen
    unfold ACE.from_binary
    rw [if_neg (by omega), if_neg (by omega), hget, hb]

/-- Counterexample for C7 as stated: a 1-byte buffer whose first byte is the
unknown type code 99 fails with the malformed-structure error of the header
unpack, which does not identify the invalid type value. -/
theorem ace_short_buffer_unknown_type_error_shape :
    ACE.from_binary [99] = .error (.notValidACE 4) ∧
    PyErr.notValidACE 4 ≠ PyErr.invalidACEType 99 := ⟨rfl, by decide⟩

/-- Witness for the amended C7: with 8 bytes available, type code 99 fails
with the error naming 99. -/
theorem ace_unknown_type_code_fails_witness :
    ACE.from_binary [99, 0, 0, 0, 0, 0, 0, 0] = .error (.invalidACEType 99) :=
  (ace_unknown_type_code_fails 99 [0, 0, 0, 0, 0, 0, 0] rfl).2 (by decide)

/-- Claim C8: a buffer of at least 8 bytes whose ACL header declares a
recognized revision and aceCount = 0 decodes to an ACL with an empty aces
sequence, the ACE loop consuming exactly the 8 header bytes (its final cursor
is 8). -/
theorem acl_zero_count_empty_aces (data : List Nat) (r : ACLRevision)
    (h8 : 8 ≤ data.length)
    (hrev : ACLRevision.ofNat? (data.getD 0 0) = some r)
    (hcount : le16 data 4 = 0) :
    ACL.from_binary data =
      .ok ⟨r, data.getD 1 0, le16 data 6, [], le16 data 2⟩ ∧
    parseACEs data 8 (le16 data 4) = .ok ([], 8) := by
  constructor
  · unfold ACL.from_binary
    rw [if_neg (by omega), hcount,
        show parseACEs data 8 0 = .ok ([], 8) from rfl]
    dsimp only
    rw [hrev]
  · rw [hcount]
    rfl

/-- An 8-byte ACL header with revision 2 and aceCount 0. -/
def c8buf : List Nat := [2, 0, 8, 0, 0, 0, 0, 0]

/-- Witness for C8 at `c8buf`. -/
theorem acl_zero_count_empty_aces_witness :
    ACL.from_binary c8buf = .ok ⟨.ACL_REVISION, 0, 0, [], 8⟩ ∧
    parseACEs c8buf 8 (le16 c8buf 4) = .ok ([], 8) :=
  acl_zero_count_empty_aces c8buf .ACL_REVISION (by decide) rfl rfl

/-- When the ACE at offset 8 decodes with a declared size of 0, the cursor
never advances and each loop iteration decodes the same entry: the loop
terminates after exactly `n` iterations with `n` copies and final cursor 8. -/
theorem parseACEs_size_zero_replicates (data : List Nat) (ace : ACE)
    (hace : ACE.from_binary (data.drop 8) = .ok ace) (hsz : ace.size = 0) :
    ∀ n, parseACEs data 8 n = .ok (List.replicate n ace, 8) := by
  intro n
  induction n with
  | zero => rfl
  | succ n ih =>
    unfold parseACEs
    rw [hace]
    dsimp only
    rw [hsz, Nat.add_zero, ih]
    dsimp only
    rw [List.replicate_succ]

/-- Claim C10 (amended): for every ACL buffer with a recognized revision
declaring aceCount = n ≥ 1 whose first ACE record (at offset 8) decodes
successfully with a declared size of 0, `ACL.from_binary` neither fails nor
loops forever: the cursor never advances, the loop runs exactly n times, and
the result holds n identical entries all decoded from offset 8. -/
theorem acl_zero_size_ace_replicates (data : List Nat) (ace : ACE)
    (r : ACLRevision) (n : Nat)
    (h8 : 8 ≤ data.length)
    (hrev : ACLRevision.ofNat? (data.getD 0 0) = some r)
    (hn : le16 data 4 = n) (_hn1 : 1 ≤ n)
    (hace : ACE.from_binary (data.drop 8) = .ok ace) (hsz : ace.size = 0) :
    ACL.from_binary data =
      .ok ⟨r, data.getD 1 0, le16 data 6, List.replicate n ace, le16 data 2⟩ ∧
    parseACEs data 8 n = .ok (List.replicate n ace, 8) := by
  have hrep := parseACEs_size_zero_replicates data ace hace hsz
  refine ⟨?_, hrep n⟩
  unfold ACL.from_binary
  rw [if_neg (by omega), hn, hrep n]
  dsimp only
  rw [hrev]

/-- An ACL buffer with unrecognized revision 0 declaring one ACE, whose first
ACE decodes successfully with declared size 0. -/
def c10buf : List Nat :=
  [0, 0, 0, 0, 1, 0, 0, 0,
   0, 0, 0, 0, 0, 0, 0, 0, 1, 0, 0, 0, 0, 0, 0, 0]

/-- Counterexample for C10 as stated: the buffer declares aceCount 1 and its
first ACE decodes successfully with size 0, yet `ACL.from_binary` fails
(the revision 0 is validated — and rejected — after the loop). -/
theorem acl_zero_size_ace_unrecognized_revision_fails :
    ACL.from_binary c10buf = .error (.invalidACLRevision 0) ∧
    (ACE.from_binary (c10buf.drop 8)).toOption.map ACE.size = some 0 ∧
    le16 c10buf 4 = 1 := ⟨rfl, rfl, rfl⟩

/-- An ACL buffer with revision 2 declaring two ACEs, whose ACE at offset 8
has declared size 0. -/
def c10wbuf : List Nat :=
  [2, 0, 0, 0, 2, 0, 0, 0,
   0, 0, 0, 0, 0, 0, 0, 0, 1, 0, 0, 0, 0, 0, 0, 0]

/-- The ACE decoded from offset 8 of `c10wbuf`. -/
def c10wace : ACE :=
  ((ACE.from_binary (c10wbuf.drop 8)).toOption).getD
    ⟨.ACCESS_ALLOWED, [], 0, ⟨0, [], []⟩, none, none, none, 0⟩

/-- Witness for the amended C10 at `c10wbuf`: aceCount 2 yields two copies of
the same size-0 entry. -/
theorem acl_zero_size_ace_replicates_witness :
    ACL.from_binary c10wbuf =
      .ok ⟨.ACL_REVISION, 0, 0, List.replicate 2 c10wace, 0⟩ :=
  (acl_zero_size_ace_replicates c10wbuf c10wace .ACL_REVISION 2
    (by decide) rfl rfl (by decide) rfl rfl).1

/-- The object-variant branch never produces the isinstance `TypeError`. -/
theorem parseObjectPart_not_typeError (t : ACEType) (d : List Nat) (m : String) :
    parseObjectPart t d ≠ .error (.typeError m) := by
  intro hc
  unfold parseObjectPart at hc
  split at hc
  · split at hc
    · exact PyErr.noConfusion ((Except.error.injEq _ _).mp hc)
    · split at hc
      · split at hc
        case h_1 e heq =>
          have h1 := uuidFromBytesLE_error _ _ heq
          have h2 := (Except.error.injEq _ _).mp hc
          rw [h1] at h2
          exact PyErr.noConfusion h2
        case h_2 u1 heq =>
          split at hc
          · split at hc
            case h_1 e heq2 =>
              have h1 := uuidFromBytesLE_error _ _ heq2
              have h2 := (Except.error.injEq _ _).mp hc
              rw [h1] at h2
              exact PyErr.noConfusion h2
            case h_2 u2 heq2 => exact Except.noConfusion hc
          · exact Except.noConfusion hc
      · split at hc
        · split at hc
          case h_1 e heq =>
            have h1 := uuidFromBytesLE_error _ _ heq
            have h2 := (Except.error.injEq _ _).mp hc
            rw [h1] at h2
            exact PyErr.noConfusion h2
          case h_2 u2 heq => exact Except.noConfusion hc
        · exact Except.noConfusion hc
  · exact Except.noConfusion hc

/-- `ACE.from_binary` on a bytes argument never raises the isinstance
`TypeError`: all its failures are the `ValueError` kinds. -/
theorem ace_from_binary_not_typeError (d : List Nat) (m : String) :
    ACE.from_binary d ≠ .error (.typeError m) := by
  intro hc
  unfold ACE.from_binary at hc
  split at hc
  · exact PyErr.noConfusion ((Except.error.injEq _ _).mp hc)
  · split at hc
    · exact PyErr.noConfusion ((Except.error.injEq _ _).mp hc)
    · split at hc
      · exact PyErr.noConfusion ((Except.error.injEq _ _).mp hc)
      case h_2 t ht =>
        rcases hpo : parseObjectPart t d with e | ⟨ot, iot, pos⟩
        · rw [hpo] at hc
          dsimp only at hc
          have h2 := (Except.error.injEq _ _).mp hc
          subst h2
          exact parseObjectPart_not_typeError t d m hpo
        · rw [hpo] at hc
          dsimp only at hc
          rcases hsid : SID.from_bytes_le (d.drop pos) with needed | sid
          · rw [hsid] at hc
            dsimp only at hc
            exact PyErr.noConfusion ((Except.error.injEq _ _).mp hc)
          · rw [hsid] at hc
            dsimp only at hc
            exact Except.noConfusion hc

/-- The ACE loop of `ACL.from_binary` never produces the isinstance
`TypeError`. -/
theorem parseACEs_not_typeError (d : List Nat) (n : Nat) :
    ∀ (pos : Nat) (m : String), parseACEs d pos n ≠ .error (.typeError m) := by
  induction n with
  | zero => exact fun pos m hc => Except.noConfusion hc
  | succ n ih =>
    intro pos m hc
    unfold parseACEs at hc
    rcases hace : ACE.from_binary (d.drop pos) with e | ace
    · rw [hace] at hc
      dsimp only at hc
      have h2 := (Except.error.injEq _ _).mp hc
      subst h2
      exact ace_from_binary_not_typeError _ _ hace
    · rw [hace] at hc
      dsimp only at hc
      rcases hrest : parseACEs d (pos + ace.size) n with e | ⟨rest, fin⟩
      · rw [hrest] at hc
        dsimp only at hc
        have h2 := (Except.error.injEq _ _).mp hc
        subst h2
        exact ih _ _ hrest
      · rw [hrest] at hc
        dsimp only at hc
        exact Except.noConfusion hc

/-- `ACL.from_binary` on a bytes argument never raises the isinstance
`TypeError`. -/
theorem acl_from_binary_not_typeError (d : List Nat) (m : String) :
    ACL.from_binary d ≠ .error (.typeError m) := by
  intro hc
  unfold ACL.from_binary at hc
  split at hc
  · exact PyErr.noConfusion ((Except.error.injEq _ _).mp hc)
  · rcases hp : parseACEs d 8 (le16 d 4) with e | ⟨aces, fin⟩
    · rw [hp] at hc
      dsimp only at hc
      have h2 := (Except.error.injEq _ _).mp hc
      subst h2
      exact parseACEs_not_typeError _ _ _ _ hp
    · rw [hp] at hc
      dsimp only at hc
      split at hc
      · exact PyErr.noConfusion ((Except.error.injEq _ _).mp hc)
      · exact Except.noConfusion hc

/-- Claim C9: a non-bytes argument makes both `ACE.from_binary` and
`ACL.from_binary` raise `TypeError` before any parsing occurs; this error kind
is distinct from the `ValueError`s used for decode failures — on a bytes
argument neither function ever produces a `TypeError`. -/
theorem from_binary_nonbytes_typeerror (s : String) (d : List Nat) :
    ACE.from_binary_py (.other s) =
      .error (.typeError "The data parameter must be bytes") ∧
    ACL.from_binary_py (.other s) =
      .error (.typeError "The data parameter must be bytes") ∧
    isTypeErrorResult (ACE.from_binary_py (.bytes d)) = false ∧
    isTypeErrorResult (ACL.from_binary_py (.bytes d)) = false := by
  refine ⟨rfl, rfl, ?_, ?_⟩
  · show isTypeErrorResult (ACE.from_binary d) = false
    rcases h : ACE.from_binary d with e | a
    · rcases e with m | n | v | _ | n | v
      · exact absurd h (ace_from_binary_not_typeError d m)
      all_goals rfl
    · rfl
  · show isTypeErrorResult (ACL.from_binary d) = false
    rcases h : ACL.from_binary d with e | a
    · rcases e with m | n | v | _ | n | v
      · exact absurd h (acl_from_binary_not_typeError d m)
      all_goals rfl
    · rfl
